import Mathlib

/-!
Shallow embedding of `run_benchmark.py` (recipe benchmark runner).

Python/YAML values are modelled by the inductive `Value`; Python `dict`s are
modelled as insertion-ordered association lists (`PyDict`), matching CPython
dict semantics: lookup finds the stored value, assignment replaces in place,
and `setdefault` of a missing key appends at the end.  Floats are carried by
their Python `str()` rendering, since the program only ever converts them to
strings.  Fallible Python code (raising) is modelled with `Except String`.
External effects (filesystem, HTTP, subprocess, `shutil.which`) are passed in
as explicit oracles.
-/

inductive Value where
  | vBool (b : Bool)
  | vInt (n : Int)
  | vFloat (render : String)
  | vStr (s : String)
  | vNull
  | vList (xs : List Value)
  | vDict (entries : List (String × Value))

abbrev PyDict := List (String × Value)

/-- Python `d.get(key)` / `d[key]` lookup on an insertion-ordered dict. -/
def alGet : PyDict → String → Option Value
  | [], _ => none
  | (k, v) :: rest, key => if k = key then some v else alGet rest key

/-- Python `d[key] = v`: replace the first binding in place, else append. -/
def alSet : PyDict → String → Value → PyDict
  | [], k, v => [(k, v)]
  | (k0, v0) :: rest, k, v =>
      if k0 = k then (k0, v) :: rest else (k0, v0) :: alSet rest k v

/-- Python `d.setdefault(key, v)` restricted to its effect on the dict:
leave the dict unchanged when the key is present, else append `(key, v)`. -/
def alSetdefault (d : PyDict) (k : String) (v : Value) : PyDict :=
  if (alGet d k).isSome then d else d ++ [(k, v)]

/-- Python truthiness (`bool(v)`), as used by `if benchmark.get("enabled", False)`
and `if not benchmark["enabled"]`.  A float is falsy exactly when its `str()`
rendering is that of a zero. -/
def pyTruthy : Value → Bool
  | .vBool b => b
  | .vInt n => n != 0
  | .vFloat r => !(r = "0.0" || r = "-0.0")
  | .vStr s => s != ""
  | .vNull => false
  | .vList xs => !xs.isEmpty
  | .vDict d => !d.isEmpty

/-- Python `repr(v)` (used by `str` on containers).  Strings are quoted with
single quotes as CPython does. -/
def pyRepr : Value → String
  | .vBool b => if b then "True" else "False"
  | .vInt n => toString n
  | .vFloat r => r
  | .vStr s => "\x27" ++ s ++ "\x27"
  | .vNull => "None"
  | .vList xs =>
      "[" ++ String.intercalate ", " (xs.attach.map fun x => pyRepr x.1) ++ "]"
  | .vDict kvs =>
      "\x7b" ++ String.intercalate ", "
        (kvs.attach.map fun kv => "\x27" ++ kv.1.1 ++ "\x27: " ++ pyRepr kv.1.2)
        ++ "\x7d"
decreasing_by
  · have := List.sizeOf_lt_of_mem x.2
    simp [Value.vList.sizeOf_spec]
    omega
  · have := List.sizeOf_lt_of_mem kv.2
    have h2 : sizeOf kv.1.2 < sizeOf kv.1 := by
      obtain ⟨a, b⟩ := kv.1
      simp
    simp [Value.vDict.sizeOf_spec]
    omega

/-- Python `str(v)`: identity on strings, `repr` on containers, `True`/`False`
on booleans, decimal rendering on numbers. -/
def pyStr : Value → String
  | .vBool b => if b then "True" else "False"
  | .vInt n => toString n
  | .vFloat r => r
  | .vStr s => s
  | .vNull => "None"
  | v => pyRepr v

/-- Python `int(v)` as used on `defaults.get("port", 8000)`.  For a float the
integer part of its decimal rendering is taken (truncation toward zero);
exponent renderings, which cannot arise from recipe ports, report an error. -/
def pyInt : Value → Except String Int
  | .vInt n => .ok n
  | .vBool b => .ok (if b then 1 else 0)
  | .vStr s =>
      match s.trim.toInt? with
      | some n => .ok n
      | none => .error ("invalid literal for int() with base 10: " ++ s)
  | .vFloat r =>
      match ((r.splitOn ".").headD "").toInt? with
      | some n => .ok n
      | none => .error ("cannot convert to int: " ++ r)
  | .vNull => .error "int() argument must not be None"
  | .vList _ => .error "int() argument must not be a list"
  | .vDict _ => .error "int() argument must not be a dict"

/-- Python `key.replace("_", "-")`: with a single-character pattern this is
exactly a per-character map, turning every underscore into a hyphen. -/
def kebab (k : String) : String :=
  String.mk (k.toList.map fun c => if c = '_' then '-' else c)

/-- `SUPPORTED_BENCHMARK_FRAMEWORKS = {"llama-benchy"}` membership is string
equality with the one member; a non-string value is never a member. -/
def isSupportedFramework : Value → Bool
  | .vStr "llama-benchy" => true
  | _ => false

/-- Lines 35-37: the three `setdefault` calls on the benchmark sub-dict. -/
def normalizeBenchmark (bm0 : PyDict) : PyDict :=
  alSetdefault
    (alSetdefault (alSetdefault bm0 "enabled" (.vBool false))
      "framework" (.vStr "llama-benchy"))
    "args" (.vDict [])

/-- `validate_recipe_benchmark_config`, body shared between the key-present
and key-missing entry paths.  `recipe1` is the recipe after
`recipe.setdefault("benchmark", {})`; `bm0` is the benchmark sub-dict that
call returned.  `which` tells whether `shutil.which("llama-benchy")` finds
the executable. -/
def validateCore (which : Bool) (recipe1 : PyDict) (bm0 : PyDict) :
    Except String PyDict :=
  let bm := normalizeBenchmark bm0
  let recipe2 := alSet recipe1 "benchmark" (.vDict bm)
  match alGet bm "framework" with
  | some (.vStr "llama-benchy") =>
      if pyTruthy ((alGet bm "enabled").getD (.vBool false)) && !which then
        .error ("benchmark.enabled=true requires llama-benchy in PATH.\n" ++
          "Install with: uv pip install -U llama-benchy")
      else
        .ok recipe2
  | some fw =>
      .error ("Unsupported benchmark framework in recipe: " ++ pyStr fw ++
        "\nSupported frameworks: llama-benchy")
  | none => .error "KeyError: framework"

/-- `validate_recipe_benchmark_config(recipe)` (lines 32-50): normalize the
`benchmark` sub-dict in place, check the framework is supported, and when
enabled check the executable is on PATH.  In-place mutation is modelled by
returning the updated recipe. -/
def validate_recipe_benchmark_config (which : Bool) (recipe : PyDict) :
    Except String PyDict :=
  match alGet recipe "benchmark" with
  | some (.vDict bm0) => validateCore which recipe bm0
  | none => validateCore which (recipe ++ [("benchmark", .vDict [])]) []
  | some _ => .error "AttributeError: benchmark value has no setdefault"

/-- Split a character list at every occurrence of `sep`, keeping empty
groups, as `str.split` with a one-character separator does. -/
def splitOnChar (sep : Char) : List Char → List (List Char)
  | [] => [[]]
  | c :: rest =>
      match splitOnChar sep rest with
      | [] => [[]]
      | grp :: grps =>
          if c = sep then [] :: grp :: grps else (c :: grp) :: grps

/-- The character list of `Path(p).name`: the last nonempty `/`-separated
component of the path. -/
def pathNameChars (p : String) : List Char :=
  ((splitOnChar '/' p.toList).filter (fun g => g ≠ [])).getLastD []

/-- `Path(p).name`. -/
def pathName (p : String) : String :=
  String.mk (pathNameChars p)

/-- `Path(p).stem`: the name with its suffix removed; a dot at position 0 or
at the very end does not start a suffix (pathlib's rule). -/
def pathStem (p : String) : String :=
  let n := pathNameChars p
  match ((List.range n.length).filter (fun i => n.getD i ' ' = '.')).getLast? with
  | some i =>
      if 0 < i ∧ i < n.length - 1 then String.mk (n.take i) else String.mk n
  | none => String.mk n

/-- `resolve_recipe_path(recipe_arg)` (lines 53-68).  The filesystem is the
oracle `fsExists`; `recipes_dir` stands for the ambient `RECIPES_DIR`. -/
def resolve_recipe_path (fsExists : String → Bool) (recipes_dir : String)
    (recipe_arg : String) : Except String String :=
  if fsExists recipe_arg then .ok recipe_arg
  else
    match [recipes_dir ++ "/" ++ pathName recipe_arg,
           recipes_dir ++ "/" ++ pathName recipe_arg ++ ".yaml",
           recipes_dir ++ "/" ++ pathName recipe_arg ++ ".yml",
           recipes_dir ++ "/" ++ pathStem recipe_arg ++ ".yaml"].find? fsExists with
    | some candidate => .ok candidate
    | none => .error ("Recipe not found: " ++ recipe_arg)

/-- `apply_llama_benchy_defaults(benchmark_args)` (lines 71-75). -/
def apply_llama_benchy_defaults (args : PyDict) : PyDict :=
  alSetdefault
    (alSetdefault
      (alSetdefault (alSetdefault args "pp" (.vList [.vInt 2048]))
        "depth" (.vList [.vInt 0]))
      "save_result" (.vStr "test.md"))
    "enable_prefix_caching" (.vBool true)

/-- `append_cli_args_from_dict(cmd, args, exclude_keys)` (lines 78-107),
with the in-place growth of `cmd` modelled by returning the extended list. -/
def append_cli_args_from_dict (cmd : List String) (args : PyDict)
    (exclude_keys : List String) : List String :=
  match args with
  | [] => cmd
  | (key, value) :: rest =>
      if exclude_keys.contains key then
        append_cli_args_from_dict cmd rest exclude_keys
      else
        let flag := "--" ++ kebab key
        match value with
        | .vBool b =>
            append_cli_args_from_dict (if b then cmd ++ [flag] else cmd) rest
              exclude_keys
        | .vList vs =>
            append_cli_args_from_dict
              (if vs.isEmpty then cmd else cmd ++ [flag] ++ vs.map pyStr) rest
              exclude_keys
        | v =>
            append_cli_args_from_dict (cmd ++ [flag, pyStr v]) rest exclude_keys

/-- `get_recipe_base_url(recipe)` (lines 110-114). -/
def get_recipe_base_url (recipe : PyDict) : Except String String :=
  match (alGet recipe "defaults").getD (.vDict []) with
  | .vDict defaults =>
      match pyInt ((alGet defaults "port").getD (.vInt 8000)) with
      | .ok port => .ok ("http://localhost:" ++ toString port ++ "/v1")
      | .error e => .error e
  | _ => .error "AttributeError: defaults value has no get"

/-- `build_llama_benchy_command(recipe, model)` (lines 117-133). -/
def build_llama_benchy_command (recipe : PyDict) (model : String) :
    Except String (List String) :=
  match (alGet recipe "benchmark").getD (.vDict []) with
  | .vDict bm =>
      match (alGet bm "args").getD (.vDict []) with
      | .vDict args0 =>
          let args := apply_llama_benchy_defaults args0
          match get_recipe_base_url recipe with
          | .ok base_url =>
              .ok (append_cli_args_from_dict
                ["llama-benchy", "--base-url", base_url, "--model", model]
                args ["base_url", "model"])
          | .error e => .error e
      | _ => .error "AttributeError: args value has no setdefault"
  | _ => .error "AttributeError: benchmark value has no setdefault"

/-- One outcome of a GET on `{base_url}/models`, as seen by the polling loop:
the request raises (transport error), the body is not JSON, or the body
decodes to a JSON value.  `json.loads` itself is external library code and is
abstracted into this oracle type. -/
inductive ProbeResponse where
  | transportError (msg : String)
  | nonJSON
  | json (payload : Value)

/-- Python `s.strip()`: drop leading and trailing whitespace. -/
def pyStrip (s : String) : String :=
  String.mk
    (((s.toList.dropWhile Char.isWhitespace).reverse.dropWhile
      Char.isWhitespace).reverse)

/-- Lines 167-170, test for one key: `first.get(key)` is usable when it is a
string with non-blank strip, and the stripped value is returned. -/
def strippedNonEmpty : Option Value → Option String
  | some (.vStr s) => if pyStrip s = "" then none else some (pyStrip s)
  | _ => none

/-- Lines 166-170: `for key in ("id", "model", "name")`, returning the first
usable stripped string, in that priority order. -/
def pickModelField (d : PyDict) : Option String :=
  (strippedNonEmpty (alGet d "id")).orElse fun _ =>
    (strippedNonEmpty (alGet d "model")).orElse fun _ =>
      strippedNonEmpty (alGet d "name")

/-- Lines 162-170: read `payload["data"]`; when it is a nonempty list whose
first element is a dict, extract a model field from that first element.
A non-dict payload raises `AttributeError` on `.get`, which the enclosing
`except` turns into the same retry behaviour as extraction failure, so both
are `none` here. -/
def extract_first_model (payload : Value) : Option String :=
  match payload with
  | .vDict pd =>
      match alGet pd "data" with
      | some (.vList (first :: _)) =>
          match first with
          | .vDict d => pickModelField d
          | _ => none
      | _ => none
  | _ => none

/-- Aggregate observable outcome of the polling loop: the returned model (or
`none` on timeout), how many HTTP requests were issued, how many times
`time.sleep` ran, and the final `last_error` value. -/
structure WaitOutcome where
  model : Option String
  requests : Nat
  sleeps : Nat
  lastError : String
deriving Repr, DecidableEq

/-- `last_error` recorded by one failed attempt (lines 158, 172, 175). -/
def probeErrorOf : ProbeResponse → String
  | .transportError e => e
  | .nonJSON => "non-JSON /v1/models response"
  | .json _ => "No model entry found in /v1/models response"

/-- A response on which the loop cannot return (lines 156-177): transport
error, non-JSON body, or JSON without a usable first model entry. -/
def responseFails : ProbeResponse → Bool
  | .json payload => (extract_first_model payload).isNone
  | _ => true

/-- Account for one failed attempt: one request issued, one sleep taken. -/
def bumpOutcome (o : WaitOutcome) : WaitOutcome :=
  { o with requests := o.requests + 1, sleeps := o.sleeps + 1 }

/-- Invariant of a run of the polling loop in which no attempt succeeds,
started at time `now` with attempt index `a` and incoming error `e`:
no model is returned, every request is matched by a sleep, the loop only
stopped once the deadline passed, and the reported error is the incoming one
(no attempts) or the error of the last attempt. -/
def FailInv (responses : Nat → ProbeResponse) (i d now : Int) (a : Nat)
    (e : String) (o : WaitOutcome) : Prop :=
  o.model = none ∧
  o.sleeps = o.requests ∧
  d - now ≤ i * o.requests ∧
  (o.requests = 0 → o.lastError = e) ∧
  (0 < o.requests → o.lastError = probeErrorOf (responses (a + o.requests - 1)))

/-- The `while time.time() < deadline` loop of
`wait_for_models_endpoint_and_get_first_model` (lines 146-177).  Time starts
at 0 and each sleep advances it by `interval`; the duration of the request
itself is abstracted to zero, which lets the loop run its maximal number of
attempts.  `responses n` is the outcome of the n-th GET. -/
def wait_loop (responses : Nat → ProbeResponse) (interval : Int)
    (hpos : 0 < interval) (deadline : Int) (attempt : Nat) (now : Int)
    (lastError : String) : WaitOutcome :=
  if _h : now < deadline then
    match responses attempt with
    | .transportError e =>
        bumpOutcome (wait_loop responses interval hpos deadline (attempt + 1)
          (now + interval) e)
    | .nonJSON =>
        bumpOutcome (wait_loop responses interval hpos deadline (attempt + 1)
          (now + interval) "non-JSON /v1/models response")
    | .json payload =>
        match extract_first_model payload with
        | some m =>
            { model := some m, requests := 1, sleeps := 0,
              lastError := lastError }
        | none =>
            bumpOutcome (wait_loop responses interval hpos deadline (attempt + 1)
              (now + interval) "No model entry found in /v1/models response")
  else
    { model := none, requests := 0, sleeps := 0, lastError := lastError }
termination_by (deadline - now).toNat
decreasing_by all_goals (simp_wf; omega)

/-- `wait_for_models_endpoint_and_get_first_model(base_url, timeout, interval)`
(lines 136-181): `deadline = time.time() + timeout_seconds` with the start
time normalized to 0, `last_error = "unknown error"`. -/
def wait_for_models_endpoint_and_get_first_model
    (responses : Nat → ProbeResponse) (timeout_seconds interval_seconds : Int)
    (h : 0 < interval_seconds) : WaitOutcome :=
  wait_loop responses interval_seconds h timeout_seconds 0 0 "unknown error"

/-- Observable outcome of `run_recipe_benchmark`: the returned exit code, the
benchmark command it printed/executed (if it reached that point), and the
number of HTTP probe requests made. -/
structure RunResult where
  exitCode : Int
  command : Option (List String)
  requests : Nat
deriving Repr, DecidableEq

/-- `run_recipe_benchmark(recipe, dry_run)` (lines 184-216).  `which` is the
`shutil.which` oracle, `responses` the HTTP oracle, and `subprocessExit cmd`
the exit code of `subprocess.run(cmd)` (`none` models `FileNotFoundError`). -/
def run_recipe_benchmark (which : Bool) (responses : Nat → ProbeResponse)
    (subprocessExit : List String → Option Int) (recipe : PyDict)
    (dry_run : Bool) : Except String RunResult :=
  match validate_recipe_benchmark_config which recipe with
  | .error e => .error e
  | .ok recipe1 =>
      match alGet recipe1 "benchmark" with
      | some (.vDict bm) =>
          match alGet bm "enabled" with
          | none => .error "KeyError: enabled"
          | some en =>
              if pyTruthy en = false then
                .ok { exitCode := 1, command := none, requests := 0 }
              else if dry_run then
                match build_llama_benchy_command recipe1 "__from_v1_models__" with
                | .ok cmd => .ok { exitCode := 0, command := some cmd, requests := 0 }
                | .error e => .error e
              else
                match get_recipe_base_url recipe1 with
                | .error e => .error e
                | .ok _base_url =>
                    let o := wait_for_models_endpoint_and_get_first_model
                      responses 300 2 (by decide)
                    match o.model with
                    | some m =>
                        if m = "" then
                          .ok { exitCode := 1, command := none,
                                requests := o.requests }
                        else
                          match build_llama_benchy_command recipe1 m with
                          | .ok cmd =>
                              match subprocessExit cmd with
                              | some rc =>
                                  .ok { exitCode := rc, command := some cmd,
                                        requests := o.requests }
                              | none =>
                                  .ok { exitCode := 1, command := some cmd,
                                        requests := o.requests }
                          | .error e => .error e
                    | none =>
                        .ok { exitCode := 1, command := none,
                              requests := o.requests }
      | _ => .error "KeyError: benchmark"

/-- The tokens one argument entry contributes, as the spec states the rules:
flag names replace every underscore with a hyphen and take a `--` prefix;
`true` is a bare flag, `false` and empty lists vanish, a non-empty list puts
each element after the flag, any other scalar becomes flag plus string form. -/
def specEntryTokens (key : String) (value : Value) : List String :=
  let flag := "--" ++ kebab key
  match value with
  | .vBool true => [flag]
  | .vBool false => []
  | .vList [] => []
  | .vList vs => flag :: vs.map pyStr
  | v => [flag, pyStr v]

/-- Spec-side rendering of a whole argument mapping: entries in mapping
order, excluded keys dropped, each remaining entry contributing
`specEntryTokens`. -/
def specTokens (args : PyDict) (exclude_keys : List String) : List String :=
  match args with
  | [] => []
  | (k, v) :: rest =>
      (if exclude_keys.contains k then [] else specEntryTokens k v) ++
        specTokens rest exclude_keys

/-- A list element that would itself yield a model identifier, had the prober
looked at it: a dict with a usable `id`/`model`/`name` field. -/
def usableEntry (e : Value) : Prop :=
  ∃ d, e = Value.vDict d ∧ (pickModelField d).isSome = true

/-- The recipe of the end-to-end dry-run scenario: `benchmark.enabled=true`,
`defaults.port=8080`, and a benchmark args mapping holding only
`temperature: 0.5`. -/
def exampleRecipe : PyDict :=
  [("defaults", .vDict [("port", .vInt 8080)]),
   ("benchmark", .vDict
     [("enabled", .vBool true),
      ("args", .vDict [("temperature", .vFloat "0.5")])])]

/-- Filesystem oracle for the bare-name resolution scenario: only
`REC/foo.yaml` exists. -/
def fooOnlyFS : String → Bool := fun s => s == "REC/foo.yaml"

/-- HTTP oracle answering every probe with `{"data": [{"id": "m1"}]}`. -/
def respM1 : Nat → ProbeResponse := fun _ =>
  .json (.vDict [("data", .vList [.vDict [("id", .vStr "m1")]])])

/-- HTTP oracle answering every probe with a non-JSON body. -/
def respNonJSON : Nat → ProbeResponse := fun _ => .nonJSON

/-- HTTP oracle whose `data` list has an unusable first element followed by a
usable one: `{"data": [{}, {"id": "m2"}]}`. -/
def respSecondUsable : Nat → ProbeResponse := fun _ =>
  .json (.vDict [("data", .vList [.vDict [], .vDict [("id", .vStr "m2")]])])

theorem alGet_append_of_some {l : PyDict} {k : String} {v : Value}
    (h : alGet l k = some v) (m : PyDict) : alGet (l ++ m) k = some v := by
  induction l with
  | nil => simp [alGet] at h
  | cons hd tl ih =>
      obtain ⟨k0, v0⟩ := hd
      simp only [alGet, List.cons_append] at h ⊢
      split at h <;> simp_all [alGet]

theorem alGet_append_of_none {l : PyDict} {k : String}
    (h : alGet l k = none) (m : PyDict) : alGet (l ++ m) k = alGet m k := by
  induction l with
  | nil => simp
  | cons hd tl ih =>
      obtain ⟨k0, v0⟩ := hd
      simp only [alGet, List.cons_append] at h ⊢
      split at h <;> simp_all [alGet]

theorem alGet_alSetdefault_of_some {l : PyDict} {k : String} {v : Value}
    (h : alGet l k = some v) (k' : String) (w : Value) :
    alGet (alSetdefault l k' w) k = some v := by
  unfold alSetdefault
  split
  · exact h
  · exact alGet_append_of_some h _

theorem alSetdefault_of_isSome {l : PyDict} {k : String}
    (h : (alGet l k).isSome) (v : Value) : alSetdefault l k v = l := by
  simp [alSetdefault, h]

theorem alGet_alSetdefault_self_isSome (l : PyDict) (k : String) (v : Value) :
    (alGet (alSetdefault l k v) k).isSome := by
  unfold alSetdefault
  split
  · assumption
  · rename_i h
    rw [alGet_append_of_none (by simp_all) [(k, v)]]
    simp [alGet]

theorem alGet_alSet_self (l : PyDict) (k : String) (v : Value) :
    alGet (alSet l k v) k = some v := by
  induction l with
  | nil => simp [alSet, alGet]
  | cons hd tl ih =>
      obtain ⟨k0, v0⟩ := hd
      simp only [alSet]
      split <;> simp_all [alGet]

theorem alSet_of_get_eq {l : PyDict} {k : String} {v : Value}
    (h : alGet l k = some v) : alSet l k v = l := by
  induction l with
  | nil => simp [alGet] at h
  | cons hd tl ih =>
      obtain ⟨k0, v0⟩ := hd
      simp only [alGet] at h
      simp only [alSet]
      split at h <;> split <;> simp_all

theorem alSet_append_single {l : PyDict} {k : String}
    (h : alGet l k = none) (v w : Value) :
    alSet (l ++ [(k, v)]) k w = l ++ [(k, w)] := by
  induction l with
  | nil => simp [alSet]
  | cons hd tl ih =>
      obtain ⟨k0, v0⟩ := hd
      simp only [alGet] at h
      split at h
      · exact absurd h (by simp)
      · simp only [List.cons_append, alSet]
        split <;> simp_all

theorem normalizeBenchmark_framework_of_some {bm0 : PyDict} {fw : Value}
    (h : alGet bm0 "framework" = some fw) :
    alGet (normalizeBenchmark bm0) "framework" = some fw := by
  unfold normalizeBenchmark
  exact alGet_alSetdefault_of_some
    (alGet_alSetdefault_of_some (alGet_alSetdefault_of_some h _ _) _ _) _ _

theorem normalizeBenchmark_keys_isSome (bm0 : PyDict) :
    (alGet (normalizeBenchmark bm0) "enabled").isSome ∧
    (alGet (normalizeBenchmark bm0) "framework").isSome ∧
    (alGet (normalizeBenchmark bm0) "args").isSome := by
  unfold normalizeBenchmark
  refine ⟨?_, ?_, ?_⟩
  · obtain ⟨v, hv⟩ := Option.isSome_iff_exists.mp
      (alGet_alSetdefault_self_isSome bm0 "enabled" (.vBool false))
    rw [alGet_alSetdefault_of_some (alGet_alSetdefault_of_some hv _ _) _ _]
    rfl
  · obtain ⟨v, hv⟩ := Option.isSome_iff_exists.mp
      (alGet_alSetdefault_self_isSome
        (alSetdefault bm0 "enabled" (.vBool false)) "framework"
        (.vStr "llama-benchy"))
    rw [alGet_alSetdefault_of_some hv _ _]
    rfl
  · exact alGet_alSetdefault_self_isSome _ "args" (.vDict [])

theorem normalizeBenchmark_idem (bm0 : PyDict) :
    normalizeBenchmark (normalizeBenchmark bm0) = normalizeBenchmark bm0 := by
  obtain ⟨he, hf, ha⟩ := normalizeBenchmark_keys_isSome bm0
  conv_lhs => rw [normalizeBenchmark]
  rw [alSetdefault_of_isSome he, alSetdefault_of_isSome hf,
    alSetdefault_of_isSome ha]

theorem append_cli_args_eq_specTokens (args : PyDict) :
    ∀ (cmd : List String) (ex : List String),
      append_cli_args_from_dict cmd args ex = cmd ++ specTokens args ex := by
  induction args with
  | nil => intro cmd ex; simp [append_cli_args_from_dict, specTokens]
  | cons hd rest ih =>
      intro cmd ex
      obtain ⟨k, v⟩ := hd
      simp only [append_cli_args_from_dict, specTokens]
      by_cases hk : k ∈ ex
      · simp [hk, ih]
      · match v with
        | .vBool true => simp [hk, ih, specEntryTokens]
        | .vBool false => simp [hk, ih, specEntryTokens]
        | .vList [] => simp [hk, ih, specEntryTokens]
        | .vList (x :: xs) => simp [hk, ih, specEntryTokens]
        | .vInt n => simp [hk, ih, specEntryTokens]
        | .vFloat r => simp [hk, ih, specEntryTokens]
        | .vStr s => simp [hk, ih, specEntryTokens]
        | .vNull => simp [hk, ih, specEntryTokens]
        | .vDict d => simp [hk, ih, specEntryTokens]

theorem validate_dispatch_some (which : Bool) (r bm : PyDict)
    (h : alGet r "benchmark" = some (Value.vDict bm)) :
    validate_recipe_benchmark_config which r = validateCore which r bm := by
  rw [validate_recipe_benchmark_config, h]

theorem validateCore_ok_inversion (which : Bool) (r r' bm0 : PyDict)
    (h : validateCore which r bm0 = Except.ok r') :
    alGet (normalizeBenchmark bm0) "framework" =
      some (Value.vStr "llama-benchy") ∧
    (pyTruthy ((alGet (normalizeBenchmark bm0) "enabled").getD
      (Value.vBool false)) && !which) = false ∧
    r' = alSet r "benchmark" (Value.vDict (normalizeBenchmark bm0)) := by
  simp only [validateCore] at h
  split at h
  · rename_i heq
    split at h
    · cases h
    · rename_i hcond
      refine ⟨heq, by simpa using hcond, ?_⟩
      injection h with h
      exact h.symm
  · cases h
  · cases h

theorem validateCore_ok_forward (which : Bool) (r : PyDict) (bm0 : PyDict)
    (hfw : alGet (normalizeBenchmark bm0) "framework" =
      some (Value.vStr "llama-benchy"))
    (hcond : (pyTruthy ((alGet (normalizeBenchmark bm0) "enabled").getD
      (Value.vBool false)) && !which) = false) :
    validateCore which r bm0 =
      Except.ok (alSet r "benchmark" (Value.vDict (normalizeBenchmark bm0))) := by
  simp only [validateCore, hfw, hcond]
  rfl

theorem validate_none_helper (which : Bool) (recipe : PyDict)
    (h : alGet recipe "benchmark" = none) :
    validate_recipe_benchmark_config which recipe =
      Except.ok (recipe ++ [("benchmark", Value.vDict
        [("enabled", Value.vBool false),
         ("framework", Value.vStr "llama-benchy"),
         ("args", Value.vDict [])])]) := by
  rw [validate_recipe_benchmark_config, h]
  simp only [validateCore]
  have hnorm : normalizeBenchmark [] =
      [("enabled", Value.vBool false),
       ("framework", Value.vStr "llama-benchy"),
       ("args", Value.vDict [])] := by rfl
  rw [hnorm, alSet_append_single h]
  rfl

theorem failInv_bump (responses : Nat → ProbeResponse) (i d now : Int)
    (a : Nat) (e e' : String) (o : WaitOutcome) (_hi : 0 < i)
    (he : probeErrorOf (responses a) = e')
    (h : FailInv responses i d (now + i) (a + 1) e' o) :
    FailInv responses i d now a e (bumpOutcome o) := by
  obtain ⟨h1, h2, h3, h4, h5⟩ := h
  refine ⟨h1, by simp [bumpOutcome, h2], ?_, by simp [bumpOutcome], ?_⟩
  · show d - now ≤ i * ((o.requests + 1 : Nat) : Int)
    have hexp : i * ((o.requests + 1 : Nat) : Int) = i * o.requests + i := by
      push_cast
      ring
    rw [hexp]
    linarith
  · intro _
    show o.lastError = probeErrorOf (responses (a + (o.requests + 1) - 1))
    have hidx : a + (o.requests + 1) - 1 = a + o.requests := by omega
    rw [hidx]
    rcases Nat.eq_zero_or_pos o.requests with hz | hp
    · rw [h4 hz, hz, Nat.add_zero, he]
    · rw [h5 hp, show a + 1 + o.requests - 1 = a + o.requests from by omega]

theorem wait_loop_fail (responses : Nat → ProbeResponse) (i : Int)
    (hi : 0 < i) (hfail : ∀ n, responseFails (responses n) = true) :
    ∀ (k : Nat) (d : Int) (a : Nat) (now : Int) (e : String),
      (d - now).toNat ≤ k →
      FailInv responses i d now a e (wait_loop responses i hi d a now e) := by
  intro k
  induction k with
  | zero =>
      intro d a now e hk
      have hnd : ¬ now < d := by omega
      rw [wait_loop, dif_neg hnd]
      exact ⟨rfl, rfl, by simp; omega, fun _ => rfl, fun h0 => by simp at h0⟩
  | succ k ih =>
      intro d a now e hk
      by_cases hlt : now < d
      · rw [wait_loop, dif_pos hlt]
        have hk' : (d - (now + i)).toNat ≤ k := by omega
        rcases hr : responses a with msg | _ | payload
        · exact failInv_bump responses i d now a e msg _ hi (by rw [hr]; rfl)
            (ih d (a + 1) (now + i) msg hk')
        · exact failInv_bump responses i d now a e _ _ hi (by rw [hr]; rfl)
            (ih d (a + 1) (now + i) "non-JSON /v1/models response" hk')
        · have hext : extract_first_model payload = none := by
            have hfa := hfail a
            rw [hr] at hfa
            simpa [responseFails, Option.isNone_iff_eq_none] using hfa
          show FailInv responses i d now a e
            (match extract_first_model payload with
             | some m =>
                 { model := some m, requests := 1, sleeps := 0, lastError := e }
             | none =>
                 bumpOutcome (wait_loop responses i hi d (a + 1) (now + i)
                   "No model entry found in /v1/models response"))
          rw [hext]
          exact failInv_bump responses i d now a e _ _ hi (by rw [hr]; rfl)
            (ih d (a + 1) (now + i)
              "No model entry found in /v1/models response" hk')
      · rw [wait_loop, dif_neg hlt]
        exact ⟨rfl, rfl, by simp; omega, fun _ => rfl, fun h0 => by simp at h0⟩

/-- C1 (counterexample): the dry run on the example recipe does produce a
command and makes no probe request, but the token sequence is not the one the
claim states: the recipe-supplied `--temperature 0.5` is emitted before the
appended defaults (`dict.setdefault` appends missing keys at the end, so
mapping-iteration order puts `temperature` first), not after
`--enable-prefix-caching` as claimed. -/
theorem dry_run_spec_token_order_refuted :
    run_recipe_benchmark true respNonJSON (fun _ => some 0) exampleRecipe
      true =
      Except.ok
        { exitCode := 0,
          command := some ["llama-benchy", "--base-url",
            "http://localhost:8080/v1", "--model", "__from_v1_models__",
            "--temperature", "0.5", "--pp", "2048", "--depth", "0",
            "--save-result", "test.md", "--enable-prefix-caching"],
          requests := 0 } ∧
    ["llama-benchy", "--base-url", "http://localhost:8080/v1", "--model",
      "__from_v1_models__", "--temperature", "0.5", "--pp", "2048",
      "--depth", "0", "--save-result", "test.md",
      "--enable-prefix-caching"] ≠
    ["llama-benchy", "--base-url", "http://localhost:8080/v1", "--model",
      "__from_v1_models__", "--pp", "2048", "--depth", "0", "--save-result",
      "test.md", "--enable-prefix-caching", "--temperature", "0.5"] :=
  ⟨by rfl, by decide⟩

/-- C1 (amended): for a recipe with `benchmark.enabled=true`,
`defaults.port=8080` and `benchmark.args` holding only `temperature: 0.5`,
the dry run exits 0 and prints exactly
`llama-benchy --base-url http://localhost:8080/v1 --model __from_v1_models__
--temperature 0.5 --pp 2048 --depth 0 --save-result test.md
--enable-prefix-caching` — the recipe-supplied argument precedes the applied
defaults — and performs no network call: the result holds for every HTTP
oracle and counts zero probe requests. -/
theorem dry_run_example_dry_command (responses : Nat → ProbeResponse)
    (subprocessExit : List String → Option Int) :
    run_recipe_benchmark true responses subprocessExit exampleRecipe true =
      Except.ok
        { exitCode := 0,
          command := some ["llama-benchy", "--base-url",
            "http://localhost:8080/v1", "--model", "__from_v1_models__",
            "--temperature", "0.5", "--pp", "2048", "--depth", "0",
            "--save-result", "test.md", "--enable-prefix-caching"],
          requests := 0 } := by
  rfl

/-- C2: every entry of an argument mapping is converted by the stated rules —
`--` plus the key with underscores turned to hyphens; boolean true gives the
bare flag, false and the empty list give nothing, a non-empty list gives the
flag then one token per element, any other scalar gives flag plus string
form — entries in mapping order, excluded keys skipped; in particular
`foo_bar = [1, 2]` yields exactly `--foo-bar 1 2`. -/
theorem append_cli_args_conversion_rules :
    (∀ (cmd : List String) (args : PyDict) (ex : List String),
      append_cli_args_from_dict cmd args ex = cmd ++ specTokens args ex) ∧
    append_cli_args_from_dict []
      [("foo_bar", Value.vList [Value.vInt 1, Value.vInt 2])] [] =
      ["--foo-bar", "1", "2"] :=
  ⟨fun cmd args ex => append_cli_args_eq_specTokens args cmd ex, by decide⟩

/-- C3: when the first probe returns a JSON body whose `data` field is a list
whose first element is a mapping with a usable model field — the first
non-empty string under `id`, `model`, `name` in that priority order, trimmed
(`pickModelField`) — the prober returns that value after exactly one request
and zero sleeps: success is terminal and does not sleep. -/
theorem wait_success_immediate (responses : Nat → ProbeResponse)
    (t i : Int) (hi : 0 < i) (ht : 0 < t) (pd d : PyDict)
    (rest : List Value) (m : String)
    (hresp : responses 0 = ProbeResponse.json (Value.vDict pd))
    (hdata : alGet pd "data" = some (Value.vList (Value.vDict d :: rest)))
    (hpick : pickModelField d = some m) :
    wait_for_models_endpoint_and_get_first_model responses t i hi =
      { model := some m, requests := 1, sleeps := 0,
        lastError := "unknown error" } := by
  rw [wait_for_models_endpoint_and_get_first_model, wait_loop,
    dif_pos (by omega : (0 : Int) < t), hresp]
  have hext : extract_first_model (Value.vDict pd) = some m := by
    rw [extract_first_model, hdata]
    exact hpick
  show (match extract_first_model (Value.vDict pd) with
        | some m =>
            { model := some m, requests := 1, sleeps := 0,
              lastError := "unknown error" }
        | none =>
            bumpOutcome (wait_loop responses i hi t (0 + 1) (0 + i)
              "No model entry found in /v1/models response") : WaitOutcome) = _
  rw [hext]

/-- C3 (witness): a mock endpoint answering `data = [ (id, m1) ]` on the
first call resolves `m1` with one request and no sleep. -/
theorem wait_success_immediate_witness :
    (0 : Int) < 2 ∧ (0 : Int) < 300 ∧
    pickModelField [("id", Value.vStr "m1")] = some "m1" ∧
    wait_for_models_endpoint_and_get_first_model respM1 300 2 (by norm_num) =
      { model := some "m1", requests := 1, sleeps := 0,
        lastError := "unknown error" } :=
  ⟨by norm_num, by norm_num, rfl,
    wait_success_immediate respM1 300 2 (by norm_num) (by norm_num)
      [("data", Value.vList [Value.vDict [("id", Value.vStr "m1")]])]
      [("id", Value.vStr "m1")] [] "m1" rfl rfl rfl⟩

/-- C4: when every probe response fails (transport error, non-JSON body, or
JSON without a usable model entry), the prober returns absence — a total
outcome, not an exception — with one sleep per attempt, it only stops once
the deadline has passed (`t ≤ i * requests`), and the reported last error is
the error of the final attempt. -/
theorem wait_failures_retry_until_deadline (responses : Nat → ProbeResponse)
    (t i : Int) (hi : 0 < i)
    (hfail : ∀ n, responseFails (responses n) = true) :
    (wait_for_models_endpoint_and_get_first_model responses t i hi).model =
      none ∧
    (wait_for_models_endpoint_and_get_first_model responses t i hi).sleeps =
      (wait_for_models_endpoint_and_get_first_model responses t i hi).requests ∧
    t ≤ i *
      (wait_for_models_endpoint_and_get_first_model responses t i hi).requests ∧
    (0 < (wait_for_models_endpoint_and_get_first_model responses t i hi).requests →
      (wait_for_models_endpoint_and_get_first_model responses t i hi).lastError =
        probeErrorOf (responses
          ((wait_for_models_endpoint_and_get_first_model responses t i hi).requests
            - 1))) := by
  obtain ⟨h1, h2, h3, h4, h5⟩ := wait_loop_fail responses i hi hfail
    (t - 0).toNat t 0 0 "unknown error" (le_refl _)
  rw [wait_for_models_endpoint_and_get_first_model]
  refine ⟨h1, h2, by simpa using h3, fun hp => by simpa using h5 hp⟩

/-- C4 (witness): with every response a non-JSON body, timeout 3 and
interval 2, the prober gives up after the deadline with no model. -/
theorem wait_failures_retry_until_deadline_witness :
    (0 : Int) < 2 ∧ (∀ n, responseFails (respNonJSON n) = true) ∧
    ((wait_for_models_endpoint_and_get_first_model respNonJSON 3 2
        (by norm_num)).model = none ∧
      (wait_for_models_endpoint_and_get_first_model respNonJSON 3 2
        (by norm_num)).sleeps =
      (wait_for_models_endpoint_and_get_first_model respNonJSON 3 2
        (by norm_num)).requests ∧
      (3 : Int) ≤ 2 *
        (wait_for_models_endpoint_and_get_first_model respNonJSON 3 2
          (by norm_num)).requests ∧
      (0 < (wait_for_models_endpoint_and_get_first_model respNonJSON 3 2
          (by norm_num)).requests →
        (wait_for_models_endpoint_and_get_first_model respNonJSON 3 2
          (by norm_num)).lastError =
          probeErrorOf (respNonJSON
            ((wait_for_models_endpoint_and_get_first_model respNonJSON 3 2
              (by norm_num)).requests - 1)))) :=
  ⟨by norm_num, fun n => rfl,
    wait_failures_retry_until_deadline respNonJSON 3 2 (by norm_num)
      (fun n => rfl)⟩

/-- C5: for every recipe with no `benchmark` key, validation succeeds and the
result is the original recipe with exactly one appended entry,
`benchmark = (enabled false, framework llama-benchy, args empty)`, for any
state of the PATH oracle; every other key keeps its position and value. -/
theorem validate_fills_missing_benchmark (which : Bool) (recipe : PyDict)
    (h : alGet recipe "benchmark" = none) :
    validate_recipe_benchmark_config which recipe =
      Except.ok (recipe ++ [("benchmark", Value.vDict
        [("enabled", Value.vBool false),
         ("framework", Value.vStr "llama-benchy"),
         ("args", Value.vDict [])])]) :=
  validate_none_helper which recipe h

/-- C5 (witness): a one-key recipe without `benchmark` gains exactly the
default benchmark block, with the existing key untouched. -/
theorem validate_fills_missing_benchmark_witness :
    alGet [("x", Value.vInt 1)] "benchmark" = none ∧
    validate_recipe_benchmark_config true [("x", Value.vInt 1)] =
      Except.ok [("x", Value.vInt 1), ("benchmark", Value.vDict
        [("enabled", Value.vBool false),
         ("framework", Value.vStr "llama-benchy"),
         ("args", Value.vDict [])])] :=
  ⟨rfl, validate_fills_missing_benchmark true [("x", Value.vInt 1)] rfl⟩

/-- C6: whenever the recipe's benchmark mapping carries a `framework` value
different from the string `llama-benchy`, validation fails with the
unsupported-framework error — for every recipe, hence for `enabled` true and
false alike, and for every state of the PATH oracle, since the framework
check precedes the enabled-dependency check. -/
theorem validate_unsupported_framework_fails (which : Bool)
    (recipe bm0 : PyDict) (fw : Value)
    (hbm : alGet recipe "benchmark" = some (Value.vDict bm0))
    (hfw : alGet bm0 "framework" = some fw)
    (hne : fw ≠ Value.vStr "llama-benchy") :
    validate_recipe_benchmark_config which recipe =
      Except.error ("Unsupported benchmark framework in recipe: " ++
        pyStr fw ++ "\nSupported frameworks: llama-benchy") := by
  rw [validate_recipe_benchmark_config, hbm]
  simp only [validateCore, normalizeBenchmark_framework_of_some hfw]

/-- C6 (witness): framework `x` is rejected both with `enabled=true` and
with `enabled=false`. -/
theorem validate_unsupported_framework_fails_witness :
    Value.vStr "x" ≠ Value.vStr "llama-benchy" ∧
    validate_recipe_benchmark_config true
      [("benchmark", Value.vDict
        [("framework", Value.vStr "x"), ("enabled", Value.vBool true)])] =
      Except.error ("Unsupported benchmark framework in recipe: " ++
        pyStr (Value.vStr "x") ++ "\nSupported frameworks: llama-benchy") ∧
    validate_recipe_benchmark_config true
      [("benchmark", Value.vDict
        [("framework", Value.vStr "x"), ("enabled", Value.vBool false)])] =
      Except.error ("Unsupported benchmark framework in recipe: " ++
        pyStr (Value.vStr "x") ++ "\nSupported frameworks: llama-benchy") :=
  ⟨by simp,
    validate_unsupported_framework_fails true _ _ (Value.vStr "x") rfl rfl
      (by simp),
    validate_unsupported_framework_fails true _ _ (Value.vStr "x") rfl rfl
      (by simp)⟩

/-- C7: validation/normalization is idempotent — whenever it succeeds,
running it again on its own output succeeds and returns that output
unchanged. -/
theorem validate_idempotent (which : Bool) (r r' : PyDict)
    (h : validate_recipe_benchmark_config which r = Except.ok r') :
    validate_recipe_benchmark_config which r' = Except.ok r' := by
  rcases hbm : alGet r "benchmark" with _ | bv
  case none =>
    rw [validate_none_helper which r hbm] at h
    injection h with h
    subst h
    have hget : alGet (r ++ [("benchmark", Value.vDict
        [("enabled", Value.vBool false),
         ("framework", Value.vStr "llama-benchy"),
         ("args", Value.vDict [])])]) "benchmark" =
        some (Value.vDict
        [("enabled", Value.vBool false),
         ("framework", Value.vStr "llama-benchy"),
         ("args", Value.vDict [])]) := by
      rw [alGet_append_of_none hbm]
      rfl
    rw [validate_dispatch_some which _ _ hget]
    rw [validateCore_ok_forward which _ _ (by rfl) (by rfl)]
    rw [show normalizeBenchmark
        [("enabled", Value.vBool false),
         ("framework", Value.vStr "llama-benchy"),
         ("args", Value.vDict [])] =
        [("enabled", Value.vBool false),
         ("framework", Value.vStr "llama-benchy"),
         ("args", Value.vDict [])] from rfl]
    rw [alSet_of_get_eq hget]
  case some =>
    rw [validate_recipe_benchmark_config, hbm] at h
    match bv with
    | Value.vDict bm0 =>
      obtain ⟨hfw, hcond, hr'⟩ := validateCore_ok_inversion which r r' bm0 h
      have hget : alGet r' "benchmark" =
          some (Value.vDict (normalizeBenchmark bm0)) := by
        rw [hr']
        exact alGet_alSet_self r "benchmark" _
      have hidem := normalizeBenchmark_idem bm0
      rw [validate_dispatch_some which r' (normalizeBenchmark bm0) hget]
      rw [validateCore_ok_forward which r' (normalizeBenchmark bm0)
        (by rw [hidem]; exact hfw) (by rw [hidem]; exact hcond)]
      rw [hidem, alSet_of_get_eq hget]
    | Value.vBool b => cases h
    | Value.vInt n => cases h
    | Value.vFloat s => cases h
    | Value.vStr s => cases h
    | Value.vNull => cases h
    | Value.vList xs => cases h

/-- C7 (witness): validating the empty recipe yields a normalized recipe on
which a second validation is the identity. -/
theorem validate_idempotent_witness :
    validate_recipe_benchmark_config true [] =
      Except.ok [("benchmark", Value.vDict
        [("enabled", Value.vBool false),
         ("framework", Value.vStr "llama-benchy"),
         ("args", Value.vDict [])])] ∧
    validate_recipe_benchmark_config true
      [("benchmark", Value.vDict
        [("enabled", Value.vBool false),
         ("framework", Value.vStr "llama-benchy"),
         ("args", Value.vDict [])])] =
      Except.ok [("benchmark", Value.vDict
        [("enabled", Value.vBool false),
         ("framework", Value.vStr "llama-benchy"),
         ("args", Value.vDict [])])] :=
  ⟨rfl, validate_idempotent true [] _ rfl⟩

/-- C8: recipe path resolution tries, in order, the argument as a literal
path, then the recipes directory joined with the basename, with `.yaml`
appended, with `.yml` appended, and joined with the stem plus `.yaml`,
returning the first existing candidate and failing with a recipe-not-found
error when none exists.  The third conjunct instantiated at a bare name
`foo` is the claim's example: `foo` resolves to `<dir>/foo.yaml` when that
exists and the earlier candidates do not. -/
theorem resolve_recipe_path_search_order (fsE : String → Bool)
    (dir arg : String) :
    (fsE arg = true → resolve_recipe_path fsE dir arg = Except.ok arg) ∧
    (fsE arg = false → fsE (dir ++ "/" ++ pathName arg) = true →
      resolve_recipe_path fsE dir arg = Except.ok (dir ++ "/" ++ pathName arg)) ∧
    (fsE arg = false → fsE (dir ++ "/" ++ pathName arg) = false →
      fsE (dir ++ "/" ++ pathName arg ++ ".yaml") = true →
      resolve_recipe_path fsE dir arg =
        Except.ok (dir ++ "/" ++ pathName arg ++ ".yaml")) ∧
    (fsE arg = false → fsE (dir ++ "/" ++ pathName arg) = false →
      fsE (dir ++ "/" ++ pathName arg ++ ".yaml") = false →
      fsE (dir ++ "/" ++ pathName arg ++ ".yml") = true →
      resolve_recipe_path fsE dir arg =
        Except.ok (dir ++ "/" ++ pathName arg ++ ".yml")) ∧
    (fsE arg = false → fsE (dir ++ "/" ++ pathName arg) = false →
      fsE (dir ++ "/" ++ pathName arg ++ ".yaml") = false →
      fsE (dir ++ "/" ++ pathName arg ++ ".yml") = false →
      fsE (dir ++ "/" ++ pathStem arg ++ ".yaml") = true →
      resolve_recipe_path fsE dir arg =
        Except.ok (dir ++ "/" ++ pathStem arg ++ ".yaml")) ∧
    (fsE arg = false → fsE (dir ++ "/" ++ pathName arg) = false →
      fsE (dir ++ "/" ++ pathName arg ++ ".yaml") = false →
      fsE (dir ++ "/" ++ pathName arg ++ ".yml") = false →
      fsE (dir ++ "/" ++ pathStem arg ++ ".yaml") = false →
      resolve_recipe_path fsE dir arg =
        Except.error ("Recipe not found: " ++ arg)) := by
  refine ⟨?_, ?_, ?_, ?_, ?_, ?_⟩ <;>
    (intros; simp [resolve_recipe_path, List.find?, *])

/-- C8 (witness): with only `REC/foo.yaml` on disk, the bare name `foo`
resolves to `REC/foo.yaml`. -/
theorem resolve_recipe_path_search_order_witness :
    fooOnlyFS "foo" = false ∧
    fooOnlyFS ("REC" ++ "/" ++ pathName "foo") = false ∧
    fooOnlyFS ("REC" ++ "/" ++ pathName "foo" ++ ".yaml") = true ∧
    resolve_recipe_path fooOnlyFS "REC" "foo" =
      Except.ok ("REC" ++ "/" ++ pathName "foo" ++ ".yaml") :=
  ⟨rfl, by decide, by decide,
    (resolve_recipe_path_search_order fooOnlyFS "REC" "foo").2.2.1 rfl
      (by decide) (by decide)⟩

/-- C9: the prober inspects only the first element of the `data` list: when
the first response's `data` has a first element that either is not a mapping
or has no usable `id`/`model`/`name` field, the loop does not succeed on
that attempt — it sleeps at least once and keeps polling — even though a
later element of the same list is a usable entry. -/
theorem wait_skips_later_entries (responses : Nat → ProbeResponse)
    (t i : Int) (hi : 0 < i) (ht : 0 < t) (pd : PyDict)
    (first : Value) (rest : List Value)
    (hresp : responses 0 = ProbeResponse.json (Value.vDict pd))
    (hdata : alGet pd "data" = some (Value.vList (first :: rest)))
    (hfirst : (∀ d, first ≠ Value.vDict d) ∨
      (∃ d, first = Value.vDict d ∧ pickModelField d = none))
    (_husable : ∃ e ∈ rest, usableEntry e) :
    1 ≤ (wait_for_models_endpoint_and_get_first_model responses t i hi).sleeps := by
  have hext : extract_first_model (Value.vDict pd) = none := by
    rw [extract_first_model, hdata]
    rcases hfirst with hnd | ⟨d, rfl, hp⟩
    · cases first with
      | vDict d => exact absurd rfl (hnd d)
      | vBool b => rfl
      | vInt n => rfl
      | vFloat r => rfl
      | vStr s => rfl
      | vNull => rfl
      | vList xs => rfl
    · exact hp
  rw [wait_for_models_endpoint_and_get_first_model, wait_loop,
    dif_pos (by omega : (0 : Int) < t), hresp]
  show 1 ≤ (match extract_first_model (Value.vDict pd) with
        | some m =>
            { model := some m, requests := 1, sleeps := 0,
              lastError := "unknown error" }
        | none =>
            bumpOutcome (wait_loop responses i hi t (0 + 1) (0 + i)
              "No model entry found in /v1/models response") : WaitOutcome).sleeps
  rw [hext]
  simp [bumpOutcome]

/-- C9 (witness): on `data = [ (), (id, m2) ]` — an empty first mapping and a
usable second one — the prober sleeps rather than resolving `m2`. -/
theorem wait_skips_later_entries_witness :
    respSecondUsable 0 = ProbeResponse.json (Value.vDict
      [("data", Value.vList
        [Value.vDict [], Value.vDict [("id", Value.vStr "m2")]])]) ∧
    pickModelField [] = none ∧
    pickModelField [("id", Value.vStr "m2")] = some "m2" ∧
    1 ≤ (wait_for_models_endpoint_and_get_first_model respSecondUsable 2 2
      (by norm_num)).sleeps :=
  ⟨rfl, rfl, rfl,
    wait_skips_later_entries respSecondUsable 2 2 (by norm_num) (by norm_num)
      [("data", Value.vList
        [Value.vDict [], Value.vDict [("id", Value.vStr "m2")]])]
      (Value.vDict []) [Value.vDict [("id", Value.vStr "m2")]] rfl rfl
      (Or.inr ⟨[], rfl, rfl⟩)
      ⟨Value.vDict [("id", Value.vStr "m2")], by simp,
        [("id", Value.vStr "m2")], rfl, rfl⟩⟩

/-- C10: called with a zero or negative timeout, the prober returns absence
at once — the deadline test precedes the first attempt — with zero HTTP
requests, zero sleeps, and the initial `unknown error` as last error. -/
theorem wait_nonpositive_timeout (responses : Nat → ProbeResponse)
    (t i : Int) (hi : 0 < i) (ht : t ≤ 0) :
    wait_for_models_endpoint_and_get_first_model responses t i hi =
      { model := none, requests := 0, sleeps := 0,
        lastError := "unknown error" } := by
  rw [wait_for_models_endpoint_and_get_first_model, wait_loop,
    dif_neg (by omega : ¬ (0 : Int) < t)]

/-- C10 (witness): timeout 0 returns immediately with no request and no
sleep. -/
theorem wait_nonpositive_timeout_witness :
    (0 : Int) ≤ 0 ∧
    wait_for_models_endpoint_and_get_first_model respNonJSON 0 2
      (by norm_num) =
      { model := none, requests := 0, sleeps := 0,
        lastError := "unknown error" } :=
  ⟨le_refl 0, wait_nonpositive_timeout respNonJSON 0 2 (by norm_num)
    (le_refl 0)⟩
